import Mathlib

/-!
Verification development for the gcp-cost-analyzer repository.

The two scripts, calculate_costs.py and validate_data.py, are embedded
shallowly: Python numbers become rationals, a metrics JSON object becomes
an association list from metric key to an optional rational (a value of
Option.none models JSON null, absence from the list models an absent key),
and code paths that raise an uncaught TypeError (arithmetic on None)
become Option.none results.  Human-readable strings are kept verbatim
where they are pure concatenation; the date-range issue messages, whose
exact text embeds float formatting, are modelled as tagged values carrying
the data the message displays.  The pricing_notes field of a breakdown
and the wall-clock validation_time field of a report are presentational
only (formatted strings and the current time) and are not modelled; no
claim concerns them.
-/

/-- Truncation toward zero, the behaviour of the Python int() constructor
on a finite numeric value. -/
def pyInt (q : ℚ) : ℤ :=
  if 0 ≤ q then ⌊q⌋ else -⌊-q⌋

/-- Round a rational to the nearest integer, ties to the even neighbour:
the idealisation of the Python built-in round applied to exact values. -/
def roundHalfEven (q : ℚ) : ℤ :=
  let f := ⌊q⌋
  let r := q - f
  if r < 1 / 2 then f
  else if 1 / 2 < r then f + 1
  else if f % 2 = 0 then f else f + 1

/-- Python round(x, 2). -/
def pyRound2 (q : ℚ) : ℚ :=
  (roundHalfEven (q * 100) : ℚ) / 100

/-- Python round(x, 3). -/
def pyRound3 (q : ℚ) : ℚ :=
  (roundHalfEven (q * 1000) : ℚ) / 1000

/-- A metrics object: association list from metric key to value, where the
stored value Option.none models JSON null and absence from the list models
an absent key. -/
abbrev Metrics : Type := List (String × Option ℚ)

/-- Python metrics.get(key, 0): the default 0 applies only when the key is
absent; a key present with null yields the null itself (which then crashes
any arithmetic performed on it). -/
def pyGet (m : Metrics) (k : String) : Option ℚ :=
  match List.lookup k m with
  | none => some 0
  | some v => v

/-- Cost breakdown for a service (the CostBreakdown dataclass of
calculate_costs.py, minus the presentational pricing_notes strings). -/
structure CostBreakdown where
  service : String
  total_cost : ℚ
  components : List (String × ℚ)
  free_tier_savings : ℚ
  billable_usage : List (String × ℚ)
deriving DecidableEq

def fsReadKey : String := "firestore.googleapis.com/document/read_count"
def fsWriteKey : String := "firestore.googleapis.com/document/write_count"
def fsDeleteKey : String := "firestore.googleapis.com/document/delete_count"
def fsStorageKey : String := "firestore.googleapis.com/storage/total_bytes"

/-- Embedding of calculate_firestore_costs.  A null value at any of the
four consulted keys makes the Python function raise a TypeError, modelled
here as Option.none. -/
def calculate_firestore_costs (metrics : Metrics) (days : ℤ) : Option CostBreakdown :=
  match pyGet metrics fsReadKey, pyGet metrics fsWriteKey,
        pyGet metrics fsDeleteKey, pyGet metrics fsStorageKey with
  | some reads, some writes, some deletes, some storage_bytes =>
    let storage_gib : ℚ := storage_bytes / (1024 ^ 3 : ℚ)
    let free_reads : ℚ := 50000 * (days : ℚ)
    let free_writes : ℚ := 20000 * (days : ℚ)
    let free_deletes : ℚ := 20000 * (days : ℚ)
    let free_storage_gib : ℚ := 1
    let billable_reads : ℚ := max 0 (reads - free_reads)
    let billable_writes : ℚ := max 0 (writes - free_writes)
    let billable_deletes : ℚ := max 0 (deletes - free_deletes)
    let billable_storage : ℚ := max 0 (storage_gib - free_storage_gib)
    let read_cost : ℚ := billable_reads / 100000 * 0.06
    let write_cost : ℚ := billable_writes / 100000 * 0.18
    let delete_cost : ℚ := billable_deletes / 100000 * 0.02
    let storage_cost : ℚ := billable_storage * 0.18
    let total : ℚ := read_cost + write_cost + delete_cost + storage_cost
    let free_savings : ℚ :=
      min reads free_reads / 100000 * 0.06
      + min writes free_writes / 100000 * 0.18
      + min deletes free_deletes / 100000 * 0.02
      + min storage_gib free_storage_gib * 0.18
    some
      { service := "firestore"
        total_cost := pyRound2 total
        components :=
          [("reads", pyRound2 read_cost), ("writes", pyRound2 write_cost),
           ("deletes", pyRound2 delete_cost), ("storage", pyRound2 storage_cost)]
        free_tier_savings := pyRound2 free_savings
        billable_usage :=
          [("reads", (pyInt billable_reads : ℚ)), ("writes", (pyInt billable_writes : ℚ)),
           ("deletes", (pyInt billable_deletes : ℚ)),
           ("storage_gib", pyRound2 billable_storage)] }
  | _, _, _, _ => none

def rtdbStorageKey : String := "firebasedatabase.googleapis.com/storage/total_bytes"
def rtdbBandwidthKey : String := "firebasedatabase.googleapis.com/network/monthly_sent"
def rtdbApiHitsKey : String := "firebasedatabase.googleapis.com/network/api_hits_count"

/-- Embedding of calculate_rtdb_costs.  The days parameter is accepted but
never used by the source function. -/
def calculate_rtdb_costs (metrics : Metrics) (days : ℤ) : Option CostBreakdown :=
  match pyGet metrics rtdbStorageKey, pyGet metrics rtdbBandwidthKey,
        pyGet metrics rtdbApiHitsKey with
  | some storage_bytes, some bandwidth_bytes, some api_hits =>
    let storage_gb : ℚ := storage_bytes / (1024 ^ 3 : ℚ)
    let bandwidth_gb : ℚ := bandwidth_bytes / (1024 ^ 3 : ℚ)
    let free_storage_gb : ℚ := 1
    let free_bandwidth_gb : ℚ := 10
    let billable_storage : ℚ := max 0 (storage_gb - free_storage_gb)
    let billable_bandwidth : ℚ := max 0 (bandwidth_gb - free_bandwidth_gb)
    let storage_cost : ℚ := billable_storage * 5.00
    let bandwidth_cost : ℚ := billable_bandwidth * 1.00
    let total : ℚ := storage_cost + bandwidth_cost
    let free_savings : ℚ :=
      min storage_gb free_storage_gb * 5.00 + min bandwidth_gb free_bandwidth_gb * 1.00
    some
      { service := "rtdb"
        total_cost := pyRound2 total
        components :=
          [("storage", pyRound2 storage_cost), ("bandwidth", pyRound2 bandwidth_cost)]
        free_tier_savings := pyRound2 free_savings
        billable_usage :=
          [("storage_gb", pyRound2 billable_storage),
           ("bandwidth_gb", pyRound2 billable_bandwidth),
           ("api_hits", (pyInt api_hits : ℚ))] }
  | _, _, _ => none

def fnExecKey : String := "cloudfunctions.googleapis.com/function/execution_count"

/-- Embedding of calculate_functions_costs.  The days parameter is unused
by the source function. -/
def calculate_functions_costs (metrics : Metrics) (days : ℤ) : Option CostBreakdown :=
  match pyGet metrics fnExecKey with
  | some executions =>
    let invocation_cost : ℚ := executions / 1000000 * 0.40
    some
      { service := "functions"
        total_cost := pyRound2 invocation_cost
        components := [("invocations", pyRound2 invocation_cost)]
        free_tier_savings := 0
        billable_usage := [("executions", (pyInt executions : ℚ))] }
  | none => none

def bqStoredKey : String := "bigquery.googleapis.com/storage/stored_bytes"
def bqQueryCountKey : String := "bigquery.googleapis.com/query/count"
def bqScannedKey : String := "bigquery.googleapis.com/query/scanned_bytes"

/-- Embedding of calculate_bigquery_costs.  The days parameter is unused
by the source function. -/
def calculate_bigquery_costs (metrics : Metrics) (days : ℤ) : Option CostBreakdown :=
  match pyGet metrics bqStoredKey, pyGet metrics bqQueryCountKey,
        pyGet metrics bqScannedKey with
  | some stored_bytes, some query_count, some scanned_bytes =>
    let stored_tb : ℚ := stored_bytes / (1024 ^ 4 : ℚ)
    let scanned_tb : ℚ := scanned_bytes / (1024 ^ 4 : ℚ)
    let storage_cost : ℚ := stored_tb * 1024 * 0.02
    let query_cost : ℚ := scanned_tb * 5.00
    let total : ℚ := storage_cost + query_cost
    some
      { service := "bigquery"
        total_cost := pyRound2 total
        components := [("storage", pyRound2 storage_cost), ("queries", pyRound2 query_cost)]
        free_tier_savings := 0
        billable_usage :=
          [("stored_tb", pyRound3 stored_tb), ("scanned_tb", pyRound3 scanned_tb),
           ("query_count", (pyInt query_count : ℚ))] }
  | _, _, _ => none

/-- Result of the calculate_costs.py entry point after the input document
has been read: either a breakdown printed to stdout, a hard dispatch error
for an unrecognised service (non-zero exit, no breakdown), or an uncaught
TypeError from a null metric value. -/
inductive CalcResult where
  | breakdown (b : CostBreakdown)
  | unknownService (service : String)
  | typeError
deriving DecidableEq

def liftCalc : Option CostBreakdown → CalcResult
  | some b => CalcResult.breakdown b
  | none => CalcResult.typeError

/-- Input document as consumed by both entry points: each top-level field
may be absent (data.get defaults apply at each use site). -/
structure InputData where
  service : Option String
  project_id : Option String
  start_date : Option String
  end_date : Option String
  metrics : Metrics

/-- Embedding of the service dispatch in main of calculate_costs.py
(everything after the input document has been loaded). -/
def calcMain (data : InputData) (days : ℤ) : CalcResult :=
  let service := data.service.getD "unknown"
  let metrics := data.metrics
  if service = "firestore" then liftCalc (calculate_firestore_costs metrics days)
  else if service = "rtdb" ∨ service = "realtime-db" ∨ service = "firebase-db" then
    liftCalc (calculate_rtdb_costs metrics days)
  else if service = "functions" ∨ service = "cloud-functions" then
    liftCalc (calculate_functions_costs metrics days)
  else if service = "bigquery" then liftCalc (calculate_bigquery_costs metrics days)
  else CalcResult.unknownService service

/-- Expected metrics per service (the SERVICE_METRICS table of
validate_data.py, transcribed verbatim). -/
def SERVICE_METRICS : List (String × List String) :=
  [("firestore",
    ["firestore.googleapis.com/document/read_count",
     "firestore.googleapis.com/document/write_count",
     "firestore.googleapis.com/document/delete_count",
     "firestore.googleapis.com/storage/total_bytes"]),
   ("rtdb",
    ["firebasedatabase.googleapis.com/network/monthly_sent",
     "firebasedatabase.googleapis.com/storage/total_bytes",
     "firebasedatabase.googleapis.com/network/api_hits_count"]),
   ("functions",
    ["cloudfunctions.googleapis.com/function/execution_count",
     "cloudfunctions.googleapis.com/function/execution_times",
     "cloudfunctions.googleapis.com/function/active_instances"]),
   ("bigquery",
    ["bigquery.googleapis.com/storage/stored_bytes",
     "bigquery.googleapis.com/query/count",
     "bigquery.googleapis.com/query/scanned_bytes"]),
   ("storage",
    ["storage.googleapis.com/storage/total_bytes",
     "storage.googleapis.com/network/sent_bytes_count",
     "storage.googleapis.com/api/request_count"]),
   ("cloudrun",
    ["run.googleapis.com/request_count",
     "run.googleapis.com/container/instance_count",
     "run.googleapis.com/container/billable_instance_time"])]

/-- The per-metric loop of validate_metrics: walks the expected keys in
order and accumulates the missing/null entries and the zero-value
warnings. -/
def collectMissing (metrics : Metrics) : List String → List String × List String
  | [] => ([], [])
  | metric :: rest =>
    let p := collectMissing metrics rest
    match List.lookup metric metrics with
    | none => (("MISSING: " ++ metric) :: p.1, p.2)
    | some none => (("NULL: " ++ metric ++ " (API returned null)") :: p.1, p.2)
    | some (some v) =>
      if v = 0 then (p.1, ("ZERO: " ++ metric ++ " = 0 (verify this is correct)") :: p.2)
      else (p.1, p.2)

/-- Embedding of validate_metrics: returns (completeness_score,
missing_metrics, warnings). -/
def validate_metrics (metrics : Metrics) (service : String) : ℤ × List String × List String :=
  let expected := (List.lookup service SERVICE_METRICS).getD []
  if expected.isEmpty then (0, ["Unknown service: " ++ service], [])
  else
    let p := collectMissing metrics expected
    let score : ℤ :=
      if p.1.isEmpty then 100
      else pyInt ((1 - (p.1.length : ℚ) / (expected.length : ℚ)) * 100)
    (score, p.1, p.2)

def isLeapYear (y : ℕ) : Bool :=
  y % 4 = 0 && (y % 100 ≠ 0 || y % 400 = 0)

def daysInMonth (y m : ℕ) : ℕ :=
  if m = 1 ∨ m = 3 ∨ m = 5 ∨ m = 7 ∨ m = 8 ∨ m = 10 ∨ m = 12 then 31
  else if m = 4 ∨ m = 6 ∨ m = 9 ∨ m = 11 then 30
  else if isLeapYear y then 29 else 28

/-- Days since the civil epoch 1970-01-01 of a Gregorian date (the
standard era-based algorithm), valid for years from 1 on. -/
def daysFromCivil (y m d : ℕ) : ℤ :=
  let y2 := if m ≤ 2 then y - 1 else y
  let era := y2 / 400
  let yoe := y2 % 400
  let mp := if 2 < m then m - 3 else m + 9
  let doy := (153 * mp + 2) / 5 + d - 1
  let doe := yoe * 365 + yoe / 4 - yoe / 100 + doy
  (era * 146097 + doe : ℤ) - 719468

/-- A parsed datetime value: calendar fields plus whether the string
carried a UTC offset (a timezone-aware value in Python terms).  Mixing an
aware and a naive value in a comparison raises in Python, which the
validator surfaces as an invalid-format issue. -/
structure Timestamp where
  year : ℕ
  month : ℕ
  day : ℕ
  hour : ℕ
  minute : ℕ
  second : ℕ
  aware : Bool
deriving DecidableEq

def Timestamp.toSecs (t : Timestamp) : ℤ :=
  daysFromCivil t.year t.month t.day * 86400 + t.hour * 3600 + t.minute * 60 + t.second

def digit2 (a b : Char) : Option ℕ :=
  if a.isDigit && b.isDigit then some ((a.toNat - 48) * 10 + (b.toNat - 48)) else none

def digit4 (a b c d : Char) : Option ℕ :=
  if a.isDigit && b.isDigit && c.isDigit && d.isDigit then
    some ((a.toNat - 48) * 1000 + (b.toNat - 48) * 100 + (c.toNat - 48) * 10 + (d.toNat - 48))
  else none

def parseTimePart (y mo d : ℕ) (rest : List Char) : Option Timestamp :=
  match rest with
  | [] => some ⟨y, mo, d, 0, 0, 0, false⟩
  | sep :: h1 :: h2 :: ':' :: m1 :: m2 :: ':' :: s1 :: s2 :: tz =>
    match digit2 h1 h2, digit2 m1 m2, digit2 s1 s2 with
    | some hh, some mi, some ss =>
      if (sep = 'T' ∨ sep = ' ') ∧ hh ≤ 23 ∧ mi ≤ 59 ∧ ss ≤ 59 then
        match tz with
        | [] => some ⟨y, mo, d, hh, mi, ss, false⟩
        | ['+', '0', '0', ':', '0', '0'] => some ⟨y, mo, d, hh, mi, ss, true⟩
        | _ => none
      else none
    | _, _, _ => none
  | _ => none

/-- Model of datetime.fromisoformat on the canonical subset of ISO 8601
used by this pipeline: YYYY-MM-DD, optionally followed by a time
HH:MM:SS (separated by T or a space), optionally followed by the +00:00
offset that the caller substitutes for a trailing Z.  Anything else is a
parse failure. -/
def parseIso (s : String) : Option Timestamp :=
  match s.toList with
  | y1 :: y2 :: y3 :: y4 :: '-' :: m1 :: m2 :: '-' :: d1 :: d2c :: rest =>
    match digit4 y1 y2 y3 y4, digit2 m1 m2, digit2 d1 d2c with
    | some y, some mo, some d =>
      if 1 ≤ y ∧ 1 ≤ mo ∧ mo ≤ 12 ∧ 1 ≤ d ∧ d ≤ daysInMonth y mo then
        parseTimePart y mo d rest
      else none
    | _, _, _ => none
  | _ => none

def replaceChar (c : Char) (rep : List Char) : List Char → List Char
  | [] => []
  | a :: rest =>
    if a = c then rep ++ replaceChar c rep rest else a :: replaceChar c rep rest

/-- The start.replace of validate_date_range: substitute +00:00 for every
occurrence of the character Z. -/
def replaceZ (s : String) : String :=
  String.mk (replaceChar 'Z' ("+00:00".toList) s.toList)

/-- Date-range issues, as tagged values carrying the data the
corresponding f-string message displays (the exact message text embeds
Python float formatting and is presentational). -/
inductive DateIssue where
  | missingBounds
  | endNotAfterStart (endDate startDate : String)
  | veryShort (seconds : ℤ)
  | notFirstOfMonth (startDate : String)
  | invalidFormat
deriving DecidableEq

/-- Embedding of validate_date_range.  A parse failure, or a comparison
of an aware with a naive datetime, raises inside the try block and is
reported as the single invalid-format issue. -/
def validate_date_range (data : InputData) : List DateIssue :=
  let start := data.start_date.getD ""
  let endd := data.end_date.getD ""
  if start = "" ∨ endd = "" then [DateIssue.missingBounds]
  else
    match parseIso (replaceZ start), parseIso (replaceZ endd) with
    | some s, some e =>
      if s.aware ≠ e.aware then [DateIssue.invalidFormat]
      else
        (if e.toSecs ≤ s.toSecs then [DateIssue.endNotAfterStart endd start] else [])
          ++ (if e.toSecs - s.toSecs < 86400 then
                [DateIssue.veryShort (e.toSecs - s.toSecs)] else [])
          ++ (if s.day ≠ 1 then [DateIssue.notFirstOfMonth start] else [])
    | _, _ => [DateIssue.invalidFormat]

/-- Validation report as assembled by main of validate_data.py (minus the
wall-clock validation_time field). -/
structure ValidationReport where
  service : String
  project_id : String
  range_start : String
  range_end : String
  completeness_score : ℤ
  missing_metrics : List String
  warnings : List String
  date_range_issues : List DateIssue
  passed : Bool
deriving DecidableEq

/-- Embedding of main of validate_data.py after the input document has
been loaded. -/
def validateMain (data : InputData) : ValidationReport :=
  let service := data.service.getD "unknown"
  let r := validate_metrics data.metrics service
  let issues := validate_date_range data
  { service := service
    project_id := data.project_id.getD "unknown"
    range_start := data.start_date.getD "unknown"
    range_end := data.end_date.getD "unknown"
    completeness_score := r.1
    missing_metrics := r.2.1
    warnings := r.2.2
    date_range_issues := issues
    passed := decide (r.1 = 100 ∧ issues = []) }

/-- Process exit status of the validation entry point: zero exactly when
the report passed. -/
def validateExitCode (data : InputData) : ℤ :=
  if (validateMain data).passed then 0 else 1

section RoundingLemmas

lemma roundHalfEven_close (q : ℚ) : |(roundHalfEven q : ℚ) - q| ≤ 1 / 2 := by
  have h0 : (⌊q⌋ : ℚ) ≤ q := Int.floor_le q
  have h1 : q < ⌊q⌋ + 1 := Int.lt_floor_add_one q
  simp only [roundHalfEven]
  rw [abs_le]
  split_ifs with ha hb hc <;> push_cast <;> constructor <;> linarith

lemma pyRound2_close (q : ℚ) : |pyRound2 q - q| ≤ 1 / 200 := by
  have h := roundHalfEven_close (q * 100)
  have e : pyRound2 q - q = ((roundHalfEven (q * 100) : ℚ) - q * 100) / 100 := by
    rw [pyRound2]; ring
  rw [e, abs_div, abs_of_pos (by norm_num : (0 : ℚ) < 100)]
  linarith

lemma roundHalfEven_nonneg (q : ℚ) (h : 0 ≤ q) : 0 ≤ roundHalfEven q := by
  have h0 : (0 : ℤ) ≤ ⌊q⌋ := Int.floor_nonneg.mpr h
  simp only [roundHalfEven]
  split_ifs <;> omega

lemma pyRound2_nonneg (q : ℚ) (h : 0 ≤ q) : 0 ≤ pyRound2 q := by
  have := roundHalfEven_nonneg (q * 100) (by positivity)
  rw [pyRound2]
  positivity

lemma pyRound2_zero : pyRound2 0 = 0 := by
  norm_num [pyRound2, roundHalfEven]

lemma pyInt_nonneg (q : ℚ) (h : 0 ≤ q) : 0 ≤ pyInt q := by
  rw [pyInt, if_pos h]
  exact Int.floor_nonneg.mpr h

lemma pyInt_zero : pyInt 0 = 0 := by
  norm_num [pyInt]

lemma round2_sum4 (a b c d : ℚ) :
    |pyRound2 (a + b + c + d) - (pyRound2 a + pyRound2 b + pyRound2 c + pyRound2 d)| ≤ 5 / 200 := by
  have h0 := pyRound2_close (a + b + c + d)
  have h1 := pyRound2_close a
  have h2 := pyRound2_close b
  have h3 := pyRound2_close c
  have h4 := pyRound2_close d
  rw [abs_le] at h0 h1 h2 h3 h4 ⊢
  constructor <;> linarith

lemma round2_sum2 (a b : ℚ) :
    |pyRound2 (a + b) - (pyRound2 a + pyRound2 b)| ≤ 3 / 200 := by
  have h0 := pyRound2_close (a + b)
  have h1 := pyRound2_close a
  have h2 := pyRound2_close b
  rw [abs_le] at h0 h1 h2 ⊢
  constructor <;> linarith

lemma min_eq_ite (a b : ℚ) : min a b = if a < b then a else b := by
  rcases lt_or_ge a b with h | h
  · rw [min_eq_left h.le, if_pos h]
  · rw [min_eq_right h, if_neg (not_lt.mpr h)]

end RoundingLemmas

section PyGetLemmas

lemma pyGet_of_lookup_none {m : Metrics} {k : String} (h : List.lookup k m = none) :
    pyGet m k = some 0 := by
  rw [pyGet, h]

lemma pyGet_of_lookup_some {m : Metrics} {k : String} {v : Option ℚ}
    (h : List.lookup k m = some v) : pyGet m k = v := by
  rw [pyGet, h]

lemma pyGet_total {m : Metrics} (h : ∀ k, List.lookup k m ≠ some none) (k : String) :
    ∃ q, pyGet m k = some q := by
  rcases hl : List.lookup k m with _ | v
  · exact ⟨0, pyGet_of_lookup_none hl⟩
  · rcases v with _ | q
    · exact absurd hl (h k)
    · exact ⟨q, pyGet_of_lookup_some hl⟩

lemma pyGet_nonneg {m : Metrics} (h : ∀ k v, List.lookup k m = some (some v) → 0 ≤ v)
    {k : String} {q : ℚ} (hq : pyGet m k = some q) : 0 ≤ q := by
  rcases hl : List.lookup k m with _ | v
  · rw [pyGet_of_lookup_none hl] at hq
    cases hq
    norm_num
  · rw [pyGet_of_lookup_some hl] at hq
    subst hq
    exact h k q hl

lemma pyGet_cons_zero {m : Metrics} {k : String} (h : List.lookup k m = none) (k2 : String) :
    pyGet ((k, some 0) :: m) k2 = pyGet m k2 := by
  show pyGet ((k, some 0) :: m) k2 = pyGet m k2
  rw [pyGet, pyGet, List.lookup]
  rcases hk : k2 == k with _ | _
  · rfl
  · have : k2 = k := by simpa using hk
    subst this
    rw [h]

lemma no_null_lookup {m : Metrics} (h : ∀ p ∈ m, p.2 ≠ none) :
    ∀ k, List.lookup k m ≠ some none := by
  intro k
  induction m with
  | nil => simp [List.lookup]
  | cons p rest ih =>
    have hp : p.2 ≠ none := h p (List.mem_cons_self p rest)
    have hrest : ∀ q ∈ rest, q.2 ≠ none := fun q hq => h q (List.mem_cons_of_mem p hq)
    rcases p with ⟨k1, v1⟩
    rw [List.lookup]
    rcases hb : k == k1 with _ | _
    · exact ih hrest
    · intro hv
      exact hp (by simpa using hv)

end PyGetLemmas

section InversionLemmas

lemma calculate_firestore_costs_inv {m : Metrics} {days : ℤ} {b : CostBreakdown}
    (hb : calculate_firestore_costs m days = some b) :
    ∃ reads writes deletes storage_bytes : ℚ,
      pyGet m fsReadKey = some reads ∧ pyGet m fsWriteKey = some writes ∧
      pyGet m fsDeleteKey = some deletes ∧ pyGet m fsStorageKey = some storage_bytes ∧
      b = { service := "firestore"
            total_cost := pyRound2 (max 0 (reads - 50000 * (days : ℚ)) / 100000 * 0.06
              + max 0 (writes - 20000 * (days : ℚ)) / 100000 * 0.18
              + max 0 (deletes - 20000 * (days : ℚ)) / 100000 * 0.02
              + max 0 (storage_bytes / 1024 ^ 3 - 1) * 0.18)
            components :=
              [("reads", pyRound2 (max 0 (reads - 50000 * (days : ℚ)) / 100000 * 0.06)),
               ("writes", pyRound2 (max 0 (writes - 20000 * (days : ℚ)) / 100000 * 0.18)),
               ("deletes", pyRound2 (max 0 (deletes - 20000 * (days : ℚ)) / 100000 * 0.02)),
               ("storage", pyRound2 (max 0 (storage_bytes / 1024 ^ 3 - 1) * 0.18))]
            free_tier_savings := pyRound2 (min reads (50000 * (days : ℚ)) / 100000 * 0.06
              + min writes (20000 * (days : ℚ)) / 100000 * 0.18
              + min deletes (20000 * (days : ℚ)) / 100000 * 0.02
              + min (storage_bytes / 1024 ^ 3) 1 * 0.18)
            billable_usage :=
              [("reads", (pyInt (max 0 (reads - 50000 * (days : ℚ))) : ℚ)),
               ("writes", (pyInt (max 0 (writes - 20000 * (days : ℚ))) : ℚ)),
               ("deletes", (pyInt (max 0 (deletes - 20000 * (days : ℚ))) : ℚ)),
               ("storage_gib", pyRound2 (max 0 (storage_bytes / 1024 ^ 3 - 1)))] } := by
  rcases hR : pyGet m fsReadKey with _ | reads <;>
    rcases hW : pyGet m fsWriteKey with _ | writes <;>
      rcases hD : pyGet m fsDeleteKey with _ | deletes <;>
        rcases hS : pyGet m fsStorageKey with _ | storage_bytes <;>
          rw [calculate_firestore_costs, hR, hW, hD, hS] at hb <;>
            first
              | exact Option.noConfusion hb
              | exact ⟨reads, writes, deletes, storage_bytes, rfl, rfl, rfl, rfl,
                  (Option.some.inj hb).symm⟩

lemma calculate_rtdb_costs_inv {m : Metrics} {days : ℤ} {b : CostBreakdown}
    (hb : calculate_rtdb_costs m days = some b) :
    ∃ storage_bytes bandwidth_bytes api_hits : ℚ,
      pyGet m rtdbStorageKey = some storage_bytes ∧
      pyGet m rtdbBandwidthKey = some bandwidth_bytes ∧
      pyGet m rtdbApiHitsKey = some api_hits ∧
      b = { service := "rtdb"
            total_cost := pyRound2 (max 0 (storage_bytes / 1024 ^ 3 - 1) * 5.00
              + max 0 (bandwidth_bytes / 1024 ^ 3 - 10) * 1.00)
            components :=
              [("storage", pyRound2 (max 0 (storage_bytes / 1024 ^ 3 - 1) * 5.00)),
               ("bandwidth", pyRound2 (max 0 (bandwidth_bytes / 1024 ^ 3 - 10) * 1.00))]
            free_tier_savings := pyRound2 (min (storage_bytes / 1024 ^ 3) 1 * 5.00
              + min (bandwidth_bytes / 1024 ^ 3) 10 * 1.00)
            billable_usage :=
              [("storage_gb", pyRound2 (max 0 (storage_bytes / 1024 ^ 3 - 1))),
               ("bandwidth_gb", pyRound2 (max 0 (bandwidth_bytes / 1024 ^ 3 - 10))),
               ("api_hits", (pyInt api_hits : ℚ))] } := by
  rcases hS : pyGet m rtdbStorageKey with _ | storage_bytes <;>
    rcases hB : pyGet m rtdbBandwidthKey with _ | bandwidth_bytes <;>
      rcases hA : pyGet m rtdbApiHitsKey with _ | api_hits <;>
        rw [calculate_rtdb_costs, hS, hB, hA] at hb <;>
          first
            | exact Option.noConfusion hb
            | exact ⟨storage_bytes, bandwidth_bytes, api_hits, rfl, rfl, rfl,
                (Option.some.inj hb).symm⟩

lemma calculate_functions_costs_inv {m : Metrics} {days : ℤ} {b : CostBreakdown}
    (hb : calculate_functions_costs m days = some b) :
    ∃ executions : ℚ,
      pyGet m fnExecKey = some executions ∧
      b = { service := "functions"
            total_cost := pyRound2 (executions / 1000000 * 0.40)
            components := [("invocations", pyRound2 (executions / 1000000 * 0.40))]
            free_tier_savings := 0
            billable_usage := [("executions", (pyInt executions : ℚ))] } := by
  rcases hE : pyGet m fnExecKey with _ | executions <;>
    rw [calculate_functions_costs, hE] at hb <;>
      first
        | exact Option.noConfusion hb
        | exact ⟨executions, rfl, (Option.some.inj hb).symm⟩

lemma calculate_bigquery_costs_inv {m : Metrics} {days : ℤ} {b : CostBreakdown}
    (hb : calculate_bigquery_costs m days = some b) :
    ∃ stored_bytes query_count scanned_bytes : ℚ,
      pyGet m bqStoredKey = some stored_bytes ∧
      pyGet m bqQueryCountKey = some query_count ∧
      pyGet m bqScannedKey = some scanned_bytes ∧
      b = { service := "bigquery"
            total_cost := pyRound2 (stored_bytes / 1024 ^ 4 * 1024 * 0.02
              + scanned_bytes / 1024 ^ 4 * 5.00)
            components :=
              [("storage", pyRound2 (stored_bytes / 1024 ^ 4 * 1024 * 0.02)),
               ("queries", pyRound2 (scanned_bytes / 1024 ^ 4 * 5.00))]
            free_tier_savings := 0
            billable_usage :=
              [("stored_tb", pyRound3 (stored_bytes / 1024 ^ 4)),
               ("scanned_tb", pyRound3 (scanned_bytes / 1024 ^ 4)),
               ("query_count", (pyInt query_count : ℚ))] } := by
  rcases hS : pyGet m bqStoredKey with _ | stored_bytes <;>
    rcases hQ : pyGet m bqQueryCountKey with _ | query_count <;>
      rcases hB : pyGet m bqScannedKey with _ | scanned_bytes <;>
        rw [calculate_bigquery_costs, hS, hQ, hB] at hb <;>
          first
            | exact Option.noConfusion hb
            | exact ⟨stored_bytes, query_count, scanned_bytes, rfl, rfl, rfl,
                (Option.some.inj hb).symm⟩

end InversionLemmas

section ConcreteData

/-- The document-store scenario of the spec: 30-day period, two million
reads, one hundred thousand writes, zero deletes, two GiB stored
(2147483648 is 2 * 1024 ^ 3, written as a plain numeral). -/
def mC2 : Metrics :=
  [(fsReadKey, some 2000000), (fsWriteKey, some 100000),
   (fsDeleteKey, some 0), (fsStorageKey, some 2147483648)]

/-- A firestore metrics mapping whose read count is present with a JSON
null value. -/
def mNullRead : Metrics := [(fsReadKey, (none : Option ℚ))]

/-- A firestore metrics mapping with one hundred thousand reads, used to
show the firestore formula depends on the period length. -/
def mC10 : Metrics := [(fsReadKey, some 100000)]

/-- The breakdown the firestore formula produces on the spec scenario. -/
def bC2 : CostBreakdown :=
  { service := "firestore"
    total_cost := 0.48
    components := [("reads", 0.30), ("writes", 0.00), ("deletes", 0.00), ("storage", 0.18)]
    free_tier_savings := 1.26
    billable_usage := [("reads", 500000), ("writes", 0), ("deletes", 0), ("storage_gib", 1)] }

lemma calc_mC2 : calculate_firestore_costs mC2 30 = some bC2 := by
  have h1 : pyGet mC2 fsReadKey = some 2000000 := by rfl
  have h2 : pyGet mC2 fsWriteKey = some 100000 := by rfl
  have h3 : pyGet mC2 fsDeleteKey = some 0 := by rfl
  have h4 : pyGet mC2 fsStorageKey = some 2147483648 := by rfl
  rw [calculate_firestore_costs, h1, h2, h3, h4]
  norm_num [bC2, pyRound2, roundHalfEven, pyInt]

end ConcreteData

/-- Claim C2: on the spec scenario (reads two million, writes one hundred
thousand, deletes zero, storage two GiB, 30 days) the firestore formula
yields component costs reads 0.30, writes 0.00, deletes 0.00,
storage 0.18, and total cost 0.48, with billable reads 500000, billable
writes and deletes 0 and billable storage 1 GiB; and the validator on the
same metrics for service firestore reports a zero-value warning for the
delete count and no missing entries (score 100). -/
theorem firestore_scenario_C2 :
    calculate_firestore_costs mC2 30 =
      some { service := "firestore"
             total_cost := 0.48
             components :=
               [("reads", 0.30), ("writes", 0.00), ("deletes", 0.00), ("storage", 0.18)]
             free_tier_savings := 1.26
             billable_usage :=
               [("reads", 500000), ("writes", 0), ("deletes", 0), ("storage_gib", 1)] }
    ∧ validate_metrics mC2 "firestore" =
        (100, [],
         ["ZERO: firestore.googleapis.com/document/delete_count = 0 (verify this is correct)"]) := by
  constructor
  · have h1 : pyGet mC2 fsReadKey = some 2000000 := by rfl
    have h2 : pyGet mC2 fsWriteKey = some 100000 := by rfl
    have h3 : pyGet mC2 fsDeleteKey = some 0 := by rfl
    have h4 : pyGet mC2 fsStorageKey = some 2147483648 := by rfl
    rw [calculate_firestore_costs, h1, h2, h3, h4]
    norm_num [pyRound2, roundHalfEven, pyInt]
  · decide

/-- Claim C1, counterexample: a metric key present with a null value does
not behave like 0.  With a null read count the firestore formula raises a
TypeError (no breakdown), while with read count 0 it returns a breakdown. -/
theorem null_metric_not_zero_C1 :
    calculate_firestore_costs mNullRead 30 = none
    ∧ (calculate_firestore_costs [(fsReadKey, some 0)] 30).isSome = true := by
  constructor
  · rfl
  · decide

/-- Claim C1 as amended: every pricing formula returns a CostBreakdown on
any metrics mapping that has no null values and any period length, and a
key absent from the mapping gives the same result as the same key present
with value 0.  (A key present with null instead aborts the formula with a
TypeError, unlike the claim as stated.) -/
theorem pricing_totality_and_missing_default_C1 :
    (∀ (m : Metrics) (days : ℤ), (∀ k, List.lookup k m ≠ some none) →
      (calculate_firestore_costs m days).isSome = true
      ∧ (calculate_rtdb_costs m days).isSome = true
      ∧ (calculate_functions_costs m days).isSome = true
      ∧ (calculate_bigquery_costs m days).isSome = true)
    ∧ (∀ (m : Metrics) (days : ℤ) (k : String), List.lookup k m = none →
      calculate_firestore_costs ((k, some 0) :: m) days = calculate_firestore_costs m days
      ∧ calculate_rtdb_costs ((k, some 0) :: m) days = calculate_rtdb_costs m days
      ∧ calculate_functions_costs ((k, some 0) :: m) days = calculate_functions_costs m days
      ∧ calculate_bigquery_costs ((k, some 0) :: m) days = calculate_bigquery_costs m days) := by
  constructor
  · intro m days h
    obtain ⟨r1, e1⟩ := pyGet_total h fsReadKey
    obtain ⟨r2, e2⟩ := pyGet_total h fsWriteKey
    obtain ⟨r3, e3⟩ := pyGet_total h fsDeleteKey
    obtain ⟨r4, e4⟩ := pyGet_total h fsStorageKey
    obtain ⟨s1, f1⟩ := pyGet_total h rtdbStorageKey
    obtain ⟨s2, f2⟩ := pyGet_total h rtdbBandwidthKey
    obtain ⟨s3, f3⟩ := pyGet_total h rtdbApiHitsKey
    obtain ⟨t1, g1⟩ := pyGet_total h fnExecKey
    obtain ⟨u1, i1⟩ := pyGet_total h bqStoredKey
    obtain ⟨u2, i2⟩ := pyGet_total h bqQueryCountKey
    obtain ⟨u3, i3⟩ := pyGet_total h bqScannedKey
    refine ⟨?_, ?_, ?_, ?_⟩
    · rw [calculate_firestore_costs, e1, e2, e3, e4]; rfl
    · rw [calculate_rtdb_costs, f1, f2, f3]; rfl
    · rw [calculate_functions_costs, g1]; rfl
    · rw [calculate_bigquery_costs, i1, i2, i3]; rfl
  · intro m days k hk
    have hc := pyGet_cons_zero hk
    refine ⟨?_, ?_, ?_, ?_⟩
    · simp only [calculate_firestore_costs, hc]
    · simp only [calculate_rtdb_costs, hc]
    · simp only [calculate_functions_costs, hc]
    · simp only [calculate_bigquery_costs, hc]

/-- Claim C1 witness: the totality and the missing-equals-zero halves of
the amended claim, instantiated on the empty mapping and the spec
scenario mapping. -/
theorem pricing_totality_witness_C1 :
    (calculate_firestore_costs mC2 30).isSome = true
    ∧ calculate_firestore_costs [(fsReadKey, some 0)] 30 =
        calculate_firestore_costs [] 30 := by
  constructor
  · exact (pricing_totality_and_missing_default_C1.1 mC2 30
      (no_null_lookup (by decide))).1
  · exact (pricing_totality_and_missing_default_C1.2 [] 30 fsReadKey rfl).1

/-- Claim C10: the rtdb, functions and bigquery formulas never consult the
period length, so any two period lengths give identical breakdowns; the
firestore formula does depend on it (one hundred thousand reads are partly
billable over 1 day but fully free over 2 days). -/
theorem period_length_influence_C10 :
    (∀ (m : Metrics) (d1 d2 : ℤ),
      calculate_rtdb_costs m d1 = calculate_rtdb_costs m d2
      ∧ calculate_functions_costs m d1 = calculate_functions_costs m d2
      ∧ calculate_bigquery_costs m d1 = calculate_bigquery_costs m d2)
    ∧ calculate_firestore_costs mC10 1 ≠ calculate_firestore_costs mC10 2 := by
  constructor
  · exact fun m d1 d2 => ⟨rfl, rfl, rfl⟩
  · have h1 : pyGet mC10 fsReadKey = some 100000 := by rfl
    have h2 : pyGet mC10 fsWriteKey = some 0 := by rfl
    have h3 : pyGet mC10 fsDeleteKey = some 0 := by rfl
    have h4 : pyGet mC10 fsStorageKey = some 0 := by rfl
    have e1 : calculate_firestore_costs mC10 1 =
        some { service := "firestore"
               total_cost := 0.03
               components := [("reads", 0.03), ("writes", 0), ("deletes", 0), ("storage", 0)]
               free_tier_savings := 0.03
               billable_usage :=
                 [("reads", 50000), ("writes", 0), ("deletes", 0), ("storage_gib", 0)] } := by
      rw [calculate_firestore_costs, h1, h2, h3, h4]
      norm_num [pyRound2, roundHalfEven, pyInt]
    have e2 : calculate_firestore_costs mC10 2 =
        some { service := "firestore"
               total_cost := 0
               components := [("reads", 0), ("writes", 0), ("deletes", 0), ("storage", 0)]
               free_tier_savings := 0.06
               billable_usage :=
                 [("reads", 0), ("writes", 0), ("deletes", 0), ("storage_gib", 0)] } := by
      rw [calculate_firestore_costs, h1, h2, h3, h4]
      norm_num [pyRound2, roundHalfEven, pyInt]
    intro h
    rw [e1, e2] at h
    have := congrArg CostBreakdown.total_cost (Option.some.inj h)
    norm_num at this

/-- Claim C3: for every metrics mapping and period length, the total_cost
of the breakdown each formula returns equals the sum of its components up
to independent 2-decimal rounding of the parts and the total (the drift is
at most half a cent per rounded quantity: (n + 1) / 200 for n
components). -/
theorem total_equals_component_sum_C3 :
    (∀ (m : Metrics) (days : ℤ) (b : CostBreakdown),
      calculate_firestore_costs m days = some b →
        |b.total_cost - (b.components.map Prod.snd).sum| ≤ 5 / 200)
    ∧ (∀ (m : Metrics) (days : ℤ) (b : CostBreakdown),
      calculate_rtdb_costs m days = some b →
        |b.total_cost - (b.components.map Prod.snd).sum| ≤ 3 / 200)
    ∧ (∀ (m : Metrics) (days : ℤ) (b : CostBreakdown),
      calculate_functions_costs m days = some b →
        |b.total_cost - (b.components.map Prod.snd).sum| ≤ 2 / 200)
    ∧ (∀ (m : Metrics) (days : ℤ) (b : CostBreakdown),
      calculate_bigquery_costs m days = some b →
        |b.total_cost - (b.components.map Prod.snd).sum| ≤ 3 / 200) := by
  refine ⟨?_, ?_, ?_, ?_⟩
  · intro m days b hb
    obtain ⟨reads, writes, deletes, storage_bytes, -, -, -, -, rfl⟩ :=
      calculate_firestore_costs_inv hb
    dsimp only
    simp only [List.map_cons, List.map_nil, List.sum_cons, List.sum_nil, add_zero]
    have h := round2_sum4 (max 0 (reads - 50000 * (days : ℚ)) / 100000 * 0.06)
      (max 0 (writes - 20000 * (days : ℚ)) / 100000 * 0.18)
      (max 0 (deletes - 20000 * (days : ℚ)) / 100000 * 0.02)
      (max 0 (storage_bytes / 1024 ^ 3 - 1) * 0.18)
    rw [abs_le] at h ⊢
    constructor <;> linarith [h.1, h.2]
  · intro m days b hb
    obtain ⟨storage_bytes, bandwidth_bytes, api_hits, -, -, -, rfl⟩ :=
      calculate_rtdb_costs_inv hb
    dsimp only
    simp only [List.map_cons, List.map_nil, List.sum_cons, List.sum_nil, add_zero]
    have h := round2_sum2 (max 0 (storage_bytes / 1024 ^ 3 - 1) * 5.00)
      (max 0 (bandwidth_bytes / 1024 ^ 3 - 10) * 1.00)
    rw [abs_le] at h ⊢
    constructor <;> linarith [h.1, h.2]
  · intro m days b hb
    obtain ⟨executions, -, rfl⟩ := calculate_functions_costs_inv hb
    dsimp only
    simp only [List.map_cons, List.map_nil, List.sum_cons, List.sum_nil, add_zero]
    rw [sub_self, abs_zero]
    norm_num
  · intro m days b hb
    obtain ⟨stored_bytes, query_count, scanned_bytes, -, -, -, rfl⟩ :=
      calculate_bigquery_costs_inv hb
    dsimp only
    simp only [List.map_cons, List.map_nil, List.sum_cons, List.sum_nil, add_zero]
    have h := round2_sum2 (stored_bytes / 1024 ^ 4 * 1024 * 0.02)
      (scanned_bytes / 1024 ^ 4 * 5.00)
    rw [abs_le] at h ⊢
    constructor <;> linarith [h.1, h.2]

/-- Claim C3 witness: the firestore conjunct instantiated on the spec
scenario breakdown. -/
theorem total_equals_component_sum_witness_C3 :
    |bC2.total_cost - (bC2.components.map Prod.snd).sum| ≤ 5 / 200 :=
  total_equals_component_sum_C3.1 mC2 30 bC2 calc_mC2

lemma nonneg_values_lookup {m : Metrics} (h : ∀ p ∈ m, 0 ≤ p.2.getD 0) :
    ∀ k v, List.lookup k m = some (some v) → 0 ≤ v := by
  intro k v
  induction m with
  | nil => simp [List.lookup]
  | cons p rest ih =>
    intro hl
    have hp : 0 ≤ p.2.getD 0 := h p (List.mem_cons_self p rest)
    have hrest : ∀ q ∈ rest, 0 ≤ q.2.getD 0 := fun q hq => h q (List.mem_cons_of_mem p hq)
    rw [List.lookup] at hl
    rcases hb : k == p.1 with _ | _
    · rw [hb] at hl
      exact ih hrest hl
    · rw [hb] at hl
      have : p.2 = some v := Option.some.inj hl
      rw [this] at hp
      exact hp

/-- Claim C7: on any metrics mapping whose present, non-null values are
all non-negative, and any period length, each formula that returns a
breakdown returns one with a non-negative total cost and non-negative
component costs. -/
theorem costs_nonnegative_C7 :
    ∀ (m : Metrics) (days : ℤ), (∀ k v, List.lookup k m = some (some v) → 0 ≤ v) →
      (∀ b, calculate_firestore_costs m days = some b →
        0 ≤ b.total_cost ∧ ∀ p ∈ b.components, 0 ≤ p.2)
      ∧ (∀ b, calculate_rtdb_costs m days = some b →
        0 ≤ b.total_cost ∧ ∀ p ∈ b.components, 0 ≤ p.2)
      ∧ (∀ b, calculate_functions_costs m days = some b →
        0 ≤ b.total_cost ∧ ∀ p ∈ b.components, 0 ≤ p.2)
      ∧ (∀ b, calculate_bigquery_costs m days = some b →
        0 ≤ b.total_cost ∧ ∀ p ∈ b.components, 0 ≤ p.2) := by
  intro m days h
  refine ⟨?_, ?_, ?_, ?_⟩
  · intro b hb
    obtain ⟨reads, writes, deletes, storage_bytes, -, -, -, -, rfl⟩ :=
      calculate_firestore_costs_inv hb
    have t1 : (0 : ℚ) ≤ max 0 (reads - 50000 * (days : ℚ)) / 100000 * 0.06 :=
      mul_nonneg (div_nonneg (le_max_left 0 _) (by norm_num)) (by norm_num)
    have t2 : (0 : ℚ) ≤ max 0 (writes - 20000 * (days : ℚ)) / 100000 * 0.18 :=
      mul_nonneg (div_nonneg (le_max_left 0 _) (by norm_num)) (by norm_num)
    have t3 : (0 : ℚ) ≤ max 0 (deletes - 20000 * (days : ℚ)) / 100000 * 0.02 :=
      mul_nonneg (div_nonneg (le_max_left 0 _) (by norm_num)) (by norm_num)
    have t4 : (0 : ℚ) ≤ max 0 (storage_bytes / 1024 ^ 3 - 1) * 0.18 :=
      mul_nonneg (le_max_left 0 _) (by norm_num)
    refine ⟨pyRound2_nonneg _ (by linarith), ?_⟩
    intro p hp
    simp only [List.mem_cons, List.not_mem_nil, or_false] at hp
    rcases hp with rfl | rfl | rfl | rfl
    · exact pyRound2_nonneg _ t1
    · exact pyRound2_nonneg _ t2
    · exact pyRound2_nonneg _ t3
    · exact pyRound2_nonneg _ t4
  · intro b hb
    obtain ⟨storage_bytes, bandwidth_bytes, api_hits, -, -, -, rfl⟩ :=
      calculate_rtdb_costs_inv hb
    have t1 : (0 : ℚ) ≤ max 0 (storage_bytes / 1024 ^ 3 - 1) * 5.00 :=
      mul_nonneg (le_max_left 0 _) (by norm_num)
    have t2 : (0 : ℚ) ≤ max 0 (bandwidth_bytes / 1024 ^ 3 - 10) * 1.00 :=
      mul_nonneg (le_max_left 0 _) (by norm_num)
    refine ⟨pyRound2_nonneg _ (by linarith), ?_⟩
    intro p hp
    simp only [List.mem_cons, List.not_mem_nil, or_false] at hp
    rcases hp with rfl | rfl
    · exact pyRound2_nonneg _ t1
    · exact pyRound2_nonneg _ t2
  · intro b hb
    obtain ⟨executions, hE, rfl⟩ := calculate_functions_costs_inv hb
    have he : (0 : ℚ) ≤ executions := pyGet_nonneg h hE
    have t1 : (0 : ℚ) ≤ executions / 1000000 * 0.40 :=
      mul_nonneg (div_nonneg he (by norm_num)) (by norm_num)
    refine ⟨pyRound2_nonneg _ t1, ?_⟩
    intro p hp
    simp only [List.mem_cons, List.not_mem_nil, or_false] at hp
    rcases hp with rfl
    exact pyRound2_nonneg _ t1
  · intro b hb
    obtain ⟨stored_bytes, query_count, scanned_bytes, hS, -, hB, rfl⟩ :=
      calculate_bigquery_costs_inv hb
    have hs : (0 : ℚ) ≤ stored_bytes := pyGet_nonneg h hS
    have hc : (0 : ℚ) ≤ scanned_bytes := pyGet_nonneg h hB
    have t1 : (0 : ℚ) ≤ stored_bytes / 1024 ^ 4 * 1024 * 0.02 := by positivity
    have t2 : (0 : ℚ) ≤ scanned_bytes / 1024 ^ 4 * 5.00 := by positivity
    refine ⟨pyRound2_nonneg _ (by linarith), ?_⟩
    intro p hp
    simp only [List.mem_cons, List.not_mem_nil, or_false] at hp
    rcases hp with rfl | rfl
    · exact pyRound2_nonneg _ t1
    · exact pyRound2_nonneg _ t2

/-- Claim C7 witness: the firestore conjunct instantiated on the spec
scenario. -/
theorem costs_nonnegative_witness_C7 : 0 ≤ bC2.total_cost :=
  (((costs_nonnegative_C7 mC2 30 (nonneg_values_lookup (by decide))).1) bC2 calc_mC2).1

/-- Claim C5: in the two formulas with a modelled free tier, a category
whose raw usage is strictly below its allowance has billable quantity
exactly 0, and free_tier_savings prices each category at its raw quantity
when below the allowance and at the allowance itself otherwise. -/
theorem free_tier_savings_C5 :
    (∀ (m : Metrics) (days : ℤ) (reads writes deletes storage_bytes : ℚ) (b : CostBreakdown),
      pyGet m fsReadKey = some reads → pyGet m fsWriteKey = some writes →
      pyGet m fsDeleteKey = some deletes → pyGet m fsStorageKey = some storage_bytes →
      calculate_firestore_costs m days = some b →
        b.free_tier_savings = pyRound2
          ((if reads < 50000 * (days : ℚ) then reads else 50000 * (days : ℚ)) / 100000 * 0.06
           + (if writes < 20000 * (days : ℚ) then writes else 20000 * (days : ℚ)) / 100000 * 0.18
           + (if deletes < 20000 * (days : ℚ) then deletes else 20000 * (days : ℚ)) / 100000 * 0.02
           + (if storage_bytes / 1024 ^ 3 < 1 then storage_bytes / 1024 ^ 3 else 1) * 0.18)
        ∧ (reads < 50000 * (days : ℚ) → List.lookup "reads" b.billable_usage = some 0)
        ∧ (writes < 20000 * (days : ℚ) → List.lookup "writes" b.billable_usage = some 0)
        ∧ (deletes < 20000 * (days : ℚ) → List.lookup "deletes" b.billable_usage = some 0)
        ∧ (storage_bytes / 1024 ^ 3 < 1 →
            List.lookup "storage_gib" b.billable_usage = some 0))
    ∧ (∀ (m : Metrics) (days : ℤ) (storage_bytes bandwidth_bytes : ℚ) (b : CostBreakdown),
      pyGet m rtdbStorageKey = some storage_bytes →
      pyGet m rtdbBandwidthKey = some bandwidth_bytes →
      calculate_rtdb_costs m days = some b →
        b.free_tier_savings = pyRound2
          ((if storage_bytes / 1024 ^ 3 < 1 then storage_bytes / 1024 ^ 3 else 1) * 5.00
           + (if bandwidth_bytes / 1024 ^ 3 < 10 then bandwidth_bytes / 1024 ^ 3 else 10) * 1.00)
        ∧ (storage_bytes / 1024 ^ 3 < 1 → List.lookup "storage_gb" b.billable_usage = some 0)
        ∧ (bandwidth_bytes / 1024 ^ 3 < 10 →
            List.lookup "bandwidth_gb" b.billable_usage = some 0)) := by
  constructor
  · intro m days reads writes deletes storage_bytes b hR hW hD hS hb
    obtain ⟨r2, w2, d2, s2, hR2, hW2, hD2, hS2, rfl⟩ := calculate_firestore_costs_inv hb
    obtain rfl : reads = r2 := Option.some.inj (hR.symm.trans hR2)
    obtain rfl : writes = w2 := Option.some.inj (hW.symm.trans hW2)
    obtain rfl : deletes = d2 := Option.some.inj (hD.symm.trans hD2)
    obtain rfl : storage_bytes = s2 := Option.some.inj (hS.symm.trans hS2)
    refine ⟨?_, ?_, ?_, ?_, ?_⟩
    · dsimp only
      rw [min_eq_ite, min_eq_ite, min_eq_ite, min_eq_ite]
    · intro hlt
      have hm : max 0 (reads - 50000 * (days : ℚ)) = 0 := max_eq_left (by linarith)
      dsimp only
      simp [List.lookup, hm, pyInt_zero]
    · intro hlt
      have hm : max 0 (writes - 20000 * (days : ℚ)) = 0 := max_eq_left (by linarith)
      dsimp only
      simp [List.lookup, hm, pyInt_zero]
    · intro hlt
      have hm : max 0 (deletes - 20000 * (days : ℚ)) = 0 := max_eq_left (by linarith)
      dsimp only
      simp [List.lookup, hm, pyInt_zero]
    · intro hlt
      have hm : max 0 (storage_bytes / 1024 ^ 3 - 1) = 0 := max_eq_left (by linarith)
      dsimp only
      simp [List.lookup, hm, pyRound2_zero]
  · intro m days storage_bytes bandwidth_bytes b hS hB hb
    obtain ⟨s2, b2, a2, hS2, hB2, hA2, rfl⟩ := calculate_rtdb_costs_inv hb
    obtain rfl : storage_bytes = s2 := Option.some.inj (hS.symm.trans hS2)
    obtain rfl : bandwidth_bytes = b2 := Option.some.inj (hB.symm.trans hB2)
    refine ⟨?_, ?_, ?_⟩
    · dsimp only
      rw [min_eq_ite, min_eq_ite]
    · intro hlt
      have hm : max 0 (storage_bytes / 1024 ^ 3 - 1) = 0 := max_eq_left (by linarith)
      dsimp only
      simp [List.lookup, hm, pyRound2_zero]
    · intro hlt
      have hm : max 0 (bandwidth_bytes / 1024 ^ 3 - 10) = 0 := max_eq_left (by linarith)
      dsimp only
      simp [List.lookup, hm, pyRound2_zero]

/-- Claim C5 witness: on the spec scenario the writes category is below
its allowance, so its billable entry is 0, and the savings value equals
the case-split pricing, which evaluates to 1.26. -/
theorem free_tier_savings_witness_C5 :
    bC2.free_tier_savings = 1.26 ∧ List.lookup "writes" bC2.billable_usage = some 0 := by
  have h := free_tier_savings_C5.1 mC2 30 2000000 100000 0 2147483648 bC2
    (by rfl) (by rfl) (by rfl) (by rfl) calc_mC2
  refine ⟨?_, h.2.2.1 (by norm_num)⟩
  rw [h.1]
  norm_num [pyRound2, roundHalfEven]

/-- Claim C9: the rtdb bandwidth allowance is a flat 10 GB never scaled by
the period length (the whole rtdb result ignores the period), while each
firestore flow category subtracts a daily allowance multiplied by the
number of days (50000 reads, 20000 writes, 20000 deletes per day). -/
theorem flat_vs_daily_free_tier_C9 :
    (∀ (m : Metrics) (days : ℤ), calculate_rtdb_costs m days = calculate_rtdb_costs m 30)
    ∧ (∀ (m : Metrics) (days : ℤ) (bandwidth_bytes : ℚ) (b : CostBreakdown),
      pyGet m rtdbBandwidthKey = some bandwidth_bytes →
      calculate_rtdb_costs m days = some b →
        List.lookup "bandwidth_gb" b.billable_usage =
          some (pyRound2 (max 0 (bandwidth_bytes / 1024 ^ 3 - 10))))
    ∧ (∀ (m : Metrics) (days : ℤ) (reads writes deletes : ℚ) (b : CostBreakdown),
      pyGet m fsReadKey = some reads → pyGet m fsWriteKey = some writes →
      pyGet m fsDeleteKey = some deletes →
      calculate_firestore_costs m days = some b →
        List.lookup "reads" b.billable_usage =
          some ((pyInt (max 0 (reads - 50000 * (days : ℚ))) : ℚ))
        ∧ List.lookup "writes" b.billable_usage =
          some ((pyInt (max 0 (writes - 20000 * (days : ℚ))) : ℚ))
        ∧ List.lookup "deletes" b.billable_usage =
          some ((pyInt (max 0 (deletes - 20000 * (days : ℚ))) : ℚ))) := by
  refine ⟨fun m days => rfl, ?_, ?_⟩
  · intro m days bandwidth_bytes b hB hb
    obtain ⟨s2, b2, a2, hS2, hB2, hA2, rfl⟩ := calculate_rtdb_costs_inv hb
    obtain rfl : bandwidth_bytes = b2 := Option.some.inj (hB.symm.trans hB2)
    rfl
  · intro m days reads writes deletes b hR hW hD hb
    obtain ⟨r2, w2, d2, s2, hR2, hW2, hD2, hS2, rfl⟩ := calculate_firestore_costs_inv hb
    obtain rfl : reads = r2 := Option.some.inj (hR.symm.trans hR2)
    obtain rfl : writes = w2 := Option.some.inj (hW.symm.trans hW2)
    obtain rfl : deletes = d2 := Option.some.inj (hD.symm.trans hD2)
    exact ⟨rfl, rfl, rfl⟩

/-- Claim C9 witness: on the spec scenario the billable reads entry equals
the daily allowance times 30 subtracted from the raw reads (500000). -/
theorem flat_vs_daily_witness_C9 :
    List.lookup "reads" bC2.billable_usage = some 500000 := by
  have h := (flat_vs_daily_free_tier_C9.2.2 mC2 30 2000000 100000 0 bC2
    (by rfl) (by rfl) (by rfl) calc_mC2).1
  rw [h]
  norm_num [pyInt]

/-- Claim C6: an unrecognised service tag makes the pricing entry point
fail hard (no breakdown, error exit), while the validator degrades
gracefully: score 0, a single missing entry naming the unknown service,
no warnings, passed false, exit status 1, and the date-range check is
still performed and reported. -/
theorem unknown_service_dispatch_C6 :
    (∀ (data : InputData) (days : ℤ) (s : String), data.service = some s →
      s ≠ "firestore" → s ≠ "rtdb" → s ≠ "realtime-db" → s ≠ "firebase-db" →
      s ≠ "functions" → s ≠ "cloud-functions" → s ≠ "bigquery" →
      calcMain data days = CalcResult.unknownService s)
    ∧ (∀ (data : InputData) (s : String), data.service = some s →
      List.lookup s SERVICE_METRICS = none →
      (validateMain data).completeness_score = 0
      ∧ (validateMain data).missing_metrics = ["Unknown service: " ++ s]
      ∧ (validateMain data).warnings = []
      ∧ (validateMain data).passed = false
      ∧ (validateMain data).date_range_issues = validate_date_range data
      ∧ validateExitCode data = 1) := by
  constructor
  · intro data days s hs h1 h2 h3 h4 h5 h6 h7
    rw [calcMain, hs]
    simp only [Option.getD_some]
    rw [if_neg h1, if_neg (by simp [h2, h3, h4]), if_neg (by simp [h5, h6]), if_neg h7]
  · intro data s hs hlk
    have hv : validate_metrics data.metrics s = (0, ["Unknown service: " ++ s], []) := by
      rw [validate_metrics, hlk]
      rfl
    have hp : (validateMain data).passed = false := by
      simp [validateMain, hs, hv]
    refine ⟨?_, ?_, ?_, hp, ?_, ?_⟩
    · simp [validateMain, hs, hv]
    · simp [validateMain, hs, hv]
    · simp [validateMain, hs, hv]
    · simp [validateMain, hs, hv]
    · rw [validateExitCode, hp]
      rfl

/-- Claim C6 witness: the two halves instantiated on a document whose
service tag is the string unknown. -/
theorem unknown_service_witness_C6 :
    calcMain { service := some "unknown", project_id := none, start_date := none,
               end_date := none, metrics := [] } 30 = CalcResult.unknownService "unknown"
    ∧ (validateMain { service := some "unknown", project_id := none, start_date := none,
                      end_date := none, metrics := [] }).completeness_score = 0
    ∧ (validateMain { service := some "unknown", project_id := none, start_date := none,
                      end_date := none, metrics := [] }).passed = false := by
  have h1 := unknown_service_dispatch_C6.1
    { service := some "unknown", project_id := none, start_date := none,
      end_date := none, metrics := [] } 30 "unknown"
    rfl (by decide) (by decide) (by decide) (by decide) (by decide) (by decide) (by decide)
  have h2 := unknown_service_dispatch_C6.2
    { service := some "unknown", project_id := none, start_date := none,
      end_date := none, metrics := [] } "unknown" rfl (by rfl)
  exact ⟨h1, h2.1, h2.2.2.2.1⟩

section ValidateLemmas

lemma collectMissing_nil_iff (metrics : Metrics) (expected : List String) :
    (collectMissing metrics expected).1 = [] ↔
      ∀ k ∈ expected, ∃ v : ℚ, List.lookup k metrics = some (some v) := by
  induction expected with
  | nil => simp [collectMissing]
  | cons k rest ih =>
    rcases hl : List.lookup k metrics with _ | v
    · simp [collectMissing, hl, List.forall_mem_cons]
    · rcases v with _ | q
      · simp [collectMissing, hl, List.forall_mem_cons]
      · by_cases hq : q = 0
        · subst hq
          simp [collectMissing, hl, List.forall_mem_cons, ih]
        · simp [collectMissing, hl, hq, List.forall_mem_cons, ih]

lemma collectMissing_length_le (metrics : Metrics) (expected : List String) :
    (collectMissing metrics expected).1.length ≤ expected.length := by
  induction expected with
  | nil => simp [collectMissing]
  | cons k rest ih =>
    rcases hl : List.lookup k metrics with _ | v
    · simpa [collectMissing, hl] using ih
    · rcases v with _ | q
      · simpa [collectMissing, hl] using ih
      · by_cases hq : q = 0
        · subst hq
          simp only [collectMissing, hl, if_pos rfl, List.length_cons]
          exact le_trans ih (Nat.le_succ _)
        · simp only [collectMissing, hl, if_neg hq, List.length_cons]
          exact le_trans ih (Nat.le_succ _)

lemma collectMissing_zero_warning (metrics : Metrics) (expected : List String)
    (k : String) (hk : k ∈ expected) (hz : List.lookup k metrics = some (some 0)) :
    ("ZERO: " ++ k ++ " = 0 (verify this is correct)") ∈ (collectMissing metrics expected).2 := by
  induction expected with
  | nil => cases hk
  | cons k1 rest ih =>
    rcases List.mem_cons.mp hk with rfl | hk1
    · rcases hl : List.lookup k metrics with _ | v
      · rw [hl] at hz
        cases hz
      · rw [hl] at hz
        obtain rfl : v = some 0 := Option.some.inj hz
        simp [collectMissing, hl]
    · rcases hl : List.lookup k1 metrics with _ | v
      · simpa [collectMissing, hl] using ih hk1
      · rcases v with _ | q
        · simpa [collectMissing, hl] using ih hk1
        · by_cases hq : q = 0
          · subst hq
            simp only [collectMissing, hl, if_pos rfl]
            exact List.mem_cons_of_mem _ (ih hk1)
          · simpa [collectMissing, hl, hq] using ih hk1

lemma lookup_mem_values {l : List (String × List String)} {s : String} {e : List String}
    (h : List.lookup s l = some e) : e ∈ l.map Prod.snd := by
  induction l with
  | nil => cases h
  | cons p rest ih =>
    rw [List.lookup] at h
    rcases hb : s == p.1 with _ | _
    · rw [hb] at h
      exact List.mem_cons_of_mem _ (ih h)
    · rw [hb] at h
      rw [← Option.some.inj h]
      exact List.mem_cons_self _ _

lemma lookup_table_nonempty {s : String} {e : List String}
    (h : List.lookup s SERVICE_METRICS = some e) : e ≠ [] := by
  have hm := lookup_mem_values h
  simp only [SERVICE_METRICS, List.map_cons, List.map_nil, List.mem_cons,
    List.not_mem_nil, or_false] at hm
  rcases hm with rfl | rfl | rfl | rfl | rfl | rfl <;> simp

end ValidateLemmas

lemma validate_metrics_known {metrics : Metrics} {service : String} {expected : List String}
    (hlk : List.lookup service SERVICE_METRICS = some expected) (hne : expected ≠ []) :
    validate_metrics metrics service =
      (if (collectMissing metrics expected).1.isEmpty then (100 : ℤ)
       else pyInt ((1 - ((collectMissing metrics expected).1.length : ℚ)
         / (expected.length : ℚ)) * 100),
       (collectMissing metrics expected).1, (collectMissing metrics expected).2) := by
  have hempty : expected.isEmpty = false := by
    simpa [List.isEmpty_iff] using hne
  rw [validate_metrics, hlk]
  simp only [Option.getD_some, hempty]
  rfl

/-- Claim C4: a report passes exactly when the completeness score is 100
and there are no date-range issues; and, for a service with a schema
entry, the score is 100 exactly when every schema-required key is present
with a non-null value, a key present with value exactly 0 additionally
producing a warning (which, per the iff, does not reduce the score). -/
theorem passed_iff_complete_C4 :
    (∀ data : InputData, (validateMain data).passed = true ↔
      ((validateMain data).completeness_score = 100
        ∧ (validateMain data).date_range_issues = []))
    ∧ (∀ (metrics : Metrics) (service : String) (expected : List String),
      List.lookup service SERVICE_METRICS = some expected →
      (((validate_metrics metrics service).1 = 100) ↔
        (∀ k ∈ expected, ∃ v : ℚ, List.lookup k metrics = some (some v)))
      ∧ (∀ k ∈ expected, List.lookup k metrics = some (some 0) →
        ("ZERO: " ++ k ++ " = 0 (verify this is correct)") ∈
          (validate_metrics metrics service).2.2)) := by
  constructor
  · intro data
    simp [validateMain]
  · intro metrics service expected hlk
    have hne : expected ≠ [] := lookup_table_nonempty hlk
    rw [validate_metrics_known hlk hne]
    constructor
    · rw [← collectMissing_nil_iff metrics expected]
      dsimp only
      constructor
      · intro hs
        by_contra hne2
        have hml : 1 ≤ (collectMissing metrics expected).1.length := by
          rcases he : (collectMissing metrics expected).1 with _ | ⟨a, rest⟩
          · exact absurd he hne2
          · simp
        have hel : 1 ≤ expected.length := by
          rcases he : expected with _ | ⟨a, rest⟩
          · exact absurd he hne
          · simp
        have hle := collectMissing_length_le metrics expected
        rw [if_neg (by simpa [List.isEmpty_iff] using hne2)] at hs
        set q : ℚ := (1 - ((collectMissing metrics expected).1.length : ℚ)
          / (expected.length : ℚ)) * 100 with hqdef
        have hel0 : (0 : ℚ) < (expected.length : ℚ) := by exact_mod_cast hel
        have hml1 : (1 : ℚ) ≤ ((collectMissing metrics expected).1.length : ℚ) := by
          exact_mod_cast hml
        have hq0 : 0 ≤ q := by
          rw [hqdef]
          have hr : ((collectMissing metrics expected).1.length : ℚ)
              / (expected.length : ℚ) ≤ 1 := by
            rw [div_le_one hel0]
            exact_mod_cast hle
          nlinarith
        have hq100 : q < 100 := by
          rw [hqdef]
          have hpos : 0 < ((collectMissing metrics expected).1.length : ℚ)
              / (expected.length : ℚ) := div_pos (by linarith) hel0
          nlinarith
        rw [pyInt, if_pos hq0] at hs
        have hfl : (⌊q⌋ : ℚ) ≤ q := Int.floor_le q
        have : (⌊q⌋ : ℚ) < 100 := lt_of_le_of_lt hfl hq100
        have : ⌊q⌋ < (100 : ℤ) := by exact_mod_cast this
        omega
      · intro hm
        rw [if_pos (by simpa [List.isEmpty_iff] using hm)]
    · intro k hk hz
      exact collectMissing_zero_warning metrics expected k hk hz

/-- Claim C4 witness: the spec scenario document (service firestore, all
four keys present and non-null, a valid month-long date range) yields a
passing report, via the passed and score equivalences. -/
theorem passed_iff_complete_witness_C4 :
    (validateMain { service := some "firestore", project_id := some "p",
                    start_date := some "2024-01-01T00:00:00Z",
                    end_date := some "2024-02-01T00:00:00Z",
                    metrics := mC2 }).passed = true := by
  refine (passed_iff_complete_C4.1 _).mpr ⟨?_, ?_⟩
  · have h := (passed_iff_complete_C4.2 mC2 "firestore"
      [fsReadKey, fsWriteKey, fsDeleteKey, fsStorageKey] (by rfl)).1
    have hs : (validate_metrics mC2 "firestore").1 = 100 := by
      refine h.mpr ?_
      intro k hk
      simp only [List.mem_cons, List.not_mem_nil, or_false] at hk
      rcases hk with rfl | rfl | rfl | rfl
      · exact ⟨2000000, by rfl⟩
      · exact ⟨100000, by rfl⟩
      · exact ⟨0, by rfl⟩
      · exact ⟨2147483648, by rfl⟩
    simpa [validateMain] using hs
  · show (validateMain _).date_range_issues = []
    simp only [validateMain]
    decide

/-- Claim C8: the date-range check runs independently of the metric check;
a missing bound yields the single missing-bounds issue and no further
checks; with both bounds parsed, an issue is reported exactly when the end
is not strictly after the start, exactly when the period spans less than
24 hours (86400 seconds), and exactly when the start day-of-month is not
1; and a parse failure yields the single invalid-format issue and halts
the remaining date checks. -/
theorem date_range_check_C8 :
    (∀ data : InputData,
      (data.start_date.getD "" = "" ∨ data.end_date.getD "" = "") →
        validate_date_range data = [DateIssue.missingBounds])
    ∧ (∀ data : InputData, data.start_date.getD "" ≠ "" → data.end_date.getD "" ≠ "" →
      (parseIso (replaceZ (data.start_date.getD "")) = none
        ∨ parseIso (replaceZ (data.end_date.getD "")) = none) →
        validate_date_range data = [DateIssue.invalidFormat])
    ∧ (∀ (data : InputData) (s e : Timestamp),
      data.start_date.getD "" ≠ "" → data.end_date.getD "" ≠ "" →
      parseIso (replaceZ (data.start_date.getD "")) = some s →
      parseIso (replaceZ (data.end_date.getD "")) = some e →
      s.aware = e.aware →
        ((DateIssue.endNotAfterStart (data.end_date.getD "") (data.start_date.getD "")
            ∈ validate_date_range data) ↔ e.toSecs ≤ s.toSecs)
        ∧ ((DateIssue.veryShort (e.toSecs - s.toSecs) ∈ validate_date_range data) ↔
            e.toSecs - s.toSecs < 86400)
        ∧ ((DateIssue.notFirstOfMonth (data.start_date.getD "") ∈ validate_date_range data)
            ↔ s.day ≠ 1)) := by
  refine ⟨?_, ?_, ?_⟩
  · intro data h
    simp only [validate_date_range]
    rw [if_pos h]
  · intro data h1 h2 h3
    rcases h3 with hp | hp
    · rcases hq : parseIso (replaceZ (data.end_date.getD "")) with _ | e <;>
        simp [validate_date_range, h1, h2, hp, hq]
    · rcases hq : parseIso (replaceZ (data.start_date.getD "")) with _ | s0 <;>
        simp [validate_date_range, h1, h2, hp, hq]
  · intro data s e h1 h2 hp hq haware
    have hnot : ¬ (s.aware ≠ e.aware) := by simp [haware]
    by_cases hc1 : e.toSecs ≤ s.toSecs <;>
      by_cases hc2 : e.toSecs - s.toSecs < 86400 <;>
        by_cases hc3 : s.day ≠ 1 <;>
          simp [validate_date_range, h1, h2, hp, hq, hnot, hc1, hc2, hc3]

/-- A document with no start date. -/
def dataNoStart : InputData :=
  { service := none, project_id := none, start_date := none,
    end_date := some "2024-02-01", metrics := [] }

/-- A document covering a mid-month, month-long window. -/
def dataMidMonth : InputData :=
  { service := none, project_id := none, start_date := some "2024-01-15",
    end_date := some "2024-02-15", metrics := [] }

/-- Claim C8 witness: a document with no start date reports exactly the
missing-bounds issue, and a mid-month month-long window reports the
not-first-of-month issue. -/
theorem date_range_check_witness_C8 :
    validate_date_range dataNoStart = [DateIssue.missingBounds]
    ∧ DateIssue.notFirstOfMonth "2024-01-15" ∈ validate_date_range dataMidMonth := by
  constructor
  · exact date_range_check_C8.1 dataNoStart (Or.inl rfl)
  · have h := date_range_check_C8.2.2 dataMidMonth
      ⟨2024, 1, 15, 0, 0, 0, false⟩ ⟨2024, 2, 15, 0, 0, 0, false⟩
      (by decide) (by decide) (by decide) (by decide) rfl
    exact h.2.2.mpr (by decide)
